import Mathlib

/-!
Verification of `src/server.py` (a FastMCP demo server): the lazily
initialized shared browser session, the shell command executor, the
resource reader, and the pure tools and prompts.  Python functions are
shallowly embedded as Lean functions; the process-global mutable state
(`_browser`, `_browser_context`) is made explicit, and the cooperative
`async` scheduling of `get_browser` / `get_browser_context` is embedded
as a small-step relation on task states with explicit `await` points.
-/

/- ===================== Command Executor ===================== -/

/-- The outcome of one shell execution, as captured by
`subprocess.run(command, shell=True, check=True, text=True, capture_output=True)`:
captured standard output and standard error as text, and the exit status
(`returncode`, an integer, negative when the process was killed by a signal). -/
structure CmdResult where
  stdout : String
  stderr : String
  exitCode : Int
  deriving DecidableEq, Repr

/-- Embedding of Python's `str.strip()` with no argument: removes all
leading and trailing whitespace characters. -/
def pyStrip (s : String) : String :=
  String.mk
    ((((s.data.dropWhile Char.isWhitespace).reverse).dropWhile Char.isWhitespace).reverse)

/-- Embedding of `execute_command` (src/server.py lines 84-99).
`subprocess.run` with `check=True` raises `CalledProcessError` exactly when the
exit status is nonzero; the handler catches it and re-raises
`RuntimeError` with the message `Command failed with error: ` followed by
`e.stderr.strip()`.  On a zero exit status it returns `result.stdout.strip()`. -/
def execute_command (r : CmdResult) : Except String String :=
  if r.exitCode = 0 then
    Except.ok (pyStrip r.stdout)
  else
    Except.error ("Command failed with error: " ++ pyStrip r.stderr)

/- ===================== Resource Reader ===================== -/

/-- One step of the operating system's resolution of a path, applied to a list
of path components: `..` pops the last accumulated component (staying at the
root when there is none), `.` and empty components are skipped, and any other
component is appended.  This is what `Path.exists` / `read_text` observe when
the joined path is handed to the OS (no symbolic links modelled). -/
def resolveComponents (acc : List String) : List String → List String
  | [] => acc
  | c :: rest =>
    if c = ".." then resolveComponents acc.dropLast rest
    else if c = "." ∨ c = "" then resolveComponents acc rest
    else resolveComponents (acc ++ [c]) rest

/-- A snapshot of the file system: `files` maps the resolved absolute path
(as a component list) of every existing regular text file to its exact text
content.  A path absent from `files` either does not exist or is not a
regular file (e.g. a directory). -/
structure FileSystem where
  files : List (List String × String)
  deriving DecidableEq, Repr

/-- Split a character list at every `/`, producing the path segments a
caller-supplied name contributes to the joined path. -/
def splitSlashAux (acc : List Char) : List Char → List String
  | [] => [String.mk acc.reverse]
  | c :: rest =>
    if c = '/' then String.mk acc.reverse :: splitSlashAux [] rest
    else splitSlashAux (c :: acc) rest

/-- The `/`-separated segments of a string: `"a/b"` yields `["a", "b"]`,
the empty string yields `[""]`. -/
def splitSlash (s : String) : List String :=
  splitSlashAux [] s.data

/-- The resolved path `Path(__file__).resolve().parent.parent / "resources" / name`
used by `read_resource`: `root` is the repository root (the grandparent of the
resolved source file), and the caller-supplied `name` is joined verbatim,
its `/`-separated segments (including `..`) handed to the OS unmodified. -/
def resourcePath (root : List String) (name : String) : List String :=
  resolveComponents root ("resources" :: splitSlash name)

/-- Embedding of `read_resource` (src/server.py lines 75-81): joins `name`
onto the fixed resources directory, raises
`FileNotFoundError(f"Resource not found: " + name)` unless the resolved path
is an existing regular file, and otherwise returns the file's text content. -/
def read_resource (root : List String) (fs : FileSystem) (name : String) :
    Except String String :=
  match fs.files.lookup (resourcePath root name) with
  | some content => Except.ok content
  | none => Except.error ("Resource not found: " ++ name)

/- ===================== Sequential session manager ===================== -/

/-- The process-global mutable state of the browser session:
`browser` embeds `_browser` (src/server.py line 22), `context` embeds
`_browser_context` (line 23); opaque engine and context handles are
represented by natural-number identities.  `launches` counts completed
engine launches and `contexts` counts completed context creations;
nothing in the program ever closes either, so every launched engine and
every created context stays live. -/
structure SessionState where
  browser : Option Nat
  context : Option Nat
  launches : Nat
  contexts : Nat
  deriving DecidableEq, Repr

/-- The number of live engine handles: every completed launch produces one
and no operation in the program ever closes one. -/
def liveEngines (s : SessionState) : Nat := s.launches

/-- The number of live browsing contexts: every completed creation produces
one and no operation in the program ever closes one. -/
def liveContexts (s : SessionState) : Nat := s.contexts

/-- Embedding of `get_browser` (src/server.py lines 25-39) run without
interleaving, with the engine-launch outcome passed in as `launch`
(`Except.ok h` for a successful launch of handle `h`, `Except.error e` when
`playwright.chromium.launch` raises): if `_browser` is set it is returned
unchanged; otherwise on a successful launch the handle is stored and
returned, and on failure the exception propagates with `_browser` still
unset (the assignment never executes). -/
def getBrowserS (launch : Except String Nat) (s : SessionState) :
    Except String Nat × SessionState :=
  match s.browser with
  | some b => (Except.ok b, s)
  | none =>
    match launch with
    | Except.ok h => (Except.ok h, { s with browser := some h, launches := s.launches + 1 })
    | Except.error e => (Except.error e, s)

/-- Embedding of `get_browser_context` (src/server.py lines 41-50) run
without interleaving: if `_browser_context` is set it is returned
unchanged; otherwise the browser is obtained via `get_browser` (whose
failure propagates, leaving the context unset), a fresh context is created
from it, stored and returned. -/
def getBrowserContextS (launch : Except String Nat) (s : SessionState) :
    Except String Nat × SessionState :=
  match s.context with
  | some c => (Except.ok c, s)
  | none =>
    match getBrowserS launch s with
    | (Except.ok _, s1) =>
      (Except.ok s1.contexts, { s1 with context := some s1.contexts, contexts := s1.contexts + 1 })
    | (Except.error e, s1) => (Except.error e, s1)

/-- A call to one of the two session-manager operations. -/
inductive SessionOp where
  | engine
  | ctx
  deriving DecidableEq, Repr

/-- Run a sequence of session-manager calls one after the other, collecting
each call's outcome. -/
def runOps (launch : Except String Nat) :
    List SessionOp → SessionState → List (Except String Nat) × SessionState
  | [], s => ([], s)
  | op :: rest, s =>
    let p := match op with
      | SessionOp.engine => getBrowserS launch s
      | SessionOp.ctx => getBrowserContextS launch s
    let q := runOps launch rest p.2
    (p.1 :: q.1, q.2)

/- ===================== Interleaved session manager ===================== -/

/-- The state of one in-flight handler coroutine executing `get_browser` or
`get_browser_context`.  A constructor marks each point where the coroutine
is suspended at an `await` (yielding to the event loop) or has finished;
everything between two such points runs atomically, since the cooperative
scheduler never preempts a coroutine between awaits.
* `gbStart`: about to run `get_browser` from its entry.
* `gbAwaitStart`: `_browser` was `None`; suspended in `async_playwright().start()`.
* `gbAwaitLaunch`: suspended in `playwright.chromium.launch(...)`.
* `gbDone r`: `get_browser` returned handle `r`.
* `gcStart`: about to run `get_browser_context` from its entry.
* `gcAwaitStart` / `gcAwaitLaunch`: suspended inside the nested
  `await get_browser()` (which was entered because `_browser_context` and
  `_browser` were both `None`).
* `gcAwaitNewContext b`: holding local browser handle `b`, suspended in
  `browser.new_context(...)`.
* `gcDone r`: `get_browser_context` returned context `r`. -/
inductive SessionTask where
  | gbStart
  | gbAwaitStart
  | gbAwaitLaunch
  | gbDone (r : Nat)
  | gcStart
  | gcAwaitStart
  | gcAwaitLaunch
  | gcAwaitNewContext (b : Nat)
  | gcDone (r : Nat)
  deriving DecidableEq, Repr

/-- One atomic segment of a coroutine, from its current suspension point to
the next (or to completion), transcribed from src/server.py lines 25-50:
`gbStart` performs the `_browser is None` check; resuming from the launch
await produces a fresh handle, assigns `_browser`, and returns it (the
assignment and the `return` have no `await` between them, so they are one
segment); `gcStart` performs the `_browser_context is None` check and, when
the nested `get_browser()` returns without suspending (because `_browser`
is already set), runs straight to the `new_context` await.  Finished tasks
step to themselves. -/
def stepTask (s : SessionState) : SessionTask → SessionState × SessionTask
  | SessionTask.gbStart =>
    match s.browser with
    | some b => (s, SessionTask.gbDone b)
    | none => (s, SessionTask.gbAwaitStart)
  | SessionTask.gbAwaitStart => (s, SessionTask.gbAwaitLaunch)
  | SessionTask.gbAwaitLaunch =>
    ({ s with browser := some s.launches, launches := s.launches + 1 },
     SessionTask.gbDone s.launches)
  | SessionTask.gbDone r => (s, SessionTask.gbDone r)
  | SessionTask.gcStart =>
    match s.context with
    | some c => (s, SessionTask.gcDone c)
    | none =>
      match s.browser with
      | some b => (s, SessionTask.gcAwaitNewContext b)
      | none => (s, SessionTask.gcAwaitStart)
  | SessionTask.gcAwaitStart => (s, SessionTask.gcAwaitLaunch)
  | SessionTask.gcAwaitLaunch =>
    ({ s with browser := some s.launches, launches := s.launches + 1 },
     SessionTask.gcAwaitNewContext s.launches)
  | SessionTask.gcAwaitNewContext _ =>
    ({ s with context := some s.contexts, contexts := s.contexts + 1 },
     SessionTask.gcDone s.contexts)
  | SessionTask.gcDone r => (s, SessionTask.gcDone r)

/-- A configuration of the event loop: the shared global state together with
the states of all in-flight handler coroutines. -/
structure Config where
  state : SessionState
  tasks : List SessionTask
  deriving DecidableEq, Repr

/-- Resume the coroutine at position `i` for one atomic segment; an index
with no task leaves the configuration unchanged. -/
def stepAt (cfg : Config) (i : Nat) : Config :=
  match cfg.tasks.get? i with
  | none => cfg
  | some t =>
    let p := stepTask cfg.state t
    { state := p.1, tasks := cfg.tasks.set i p.2 }

/-- Run the event loop under an explicit schedule: at each step the listed
coroutine resumes for one atomic segment.  Any interleaving the cooperative
scheduler can produce is some such schedule. -/
def runSched (cfg : Config) : List Nat → Config
  | [] => cfg
  | i :: rest => runSched (stepAt cfg i) rest

/-- The uninitialized process state: `_browser` and `_browser_context` are
both `None` and nothing has been launched or created. -/
def initialState : SessionState :=
  { browser := none, context := none, launches := 0, contexts := 0 }

/-- Two handler coroutines both call `get_browser` while the session is
still uninitialized. -/
def twoFirstCallers : Config :=
  { state := initialState, tasks := [SessionTask.gbStart, SessionTask.gbStart] }

/-- The schedule in which the two first callers alternate at each `await`:
both run their `None` check before either has assigned `_browser`. -/
def raceSchedule : List Nat := [0, 1, 0, 1, 0, 1]

/- ===================== Pure tools and prompts ===================== -/

/-- Embedding of the `echo` tool (src/server.py lines 56-59), written with
the process state threaded explicitly to express that the handler body
neither reads nor writes the shared browser-session state. -/
def echo (text : String) (s : SessionState) : String × SessionState :=
  (text, s)

/-- Embedding of the `add` tool (src/server.py lines 62-65): IEEE-double
addition of the two arguments, not touching the shared state. -/
def add (a b : Float) (s : SessionState) : Float × SessionState :=
  (a + b, s)

/-- Embedding of the `hello` prompt (src/server.py lines 105-108): a fixed
template instantiated with `name`, not touching the shared state. -/
def hello_prompt (name : String) (s : SessionState) : String × SessionState :=
  ("Hello, " ++ name ++ "! I am an MCP server with browser capabilities. How can I help?", s)

/-- Embedding of the `sum` prompt (src/server.py lines 111-118): joins the
printed numbers with `", "` and instantiates a fixed template, not touching
the shared state. -/
def sum_prompt (numbers : List Float) (s : SessionState) : String × SessionState :=
  let nums := String.intercalate ", " (numbers.map (fun n => toString n))
  ("You are a calculator. Sum the following numbers and return only the number.\nNumbers: " ++ nums, s)

/- ===================== Operation registry ===================== -/

/-- The kind of a registered operation: tool, prompt, or resource. -/
inductive OpKind where
  | tool
  | prompt
  | resource
  deriving DecidableEq, Repr

/-- Modelled from the spec: an operation descriptor of the registry (§3, §4.1).
The registry and its dispatch live in the external FastMCP library, not in
src/; src/server.py only registers handlers with `@app.tool`, `@app.prompt`
and `@app.resource`.  `validate` checks the arguments against the declared
parameter shape, returning the offending field on failure; `handler` is the
registered callable. -/
structure OperationDescriptor where
  validate : List (String × String) → Option String
  handler : List (String × String) → Except String String

/-- The error kinds dispatch can surface (spec §4.1, §7): no descriptor
matches, an argument fails the declared shape, or the handler failed. -/
inductive DispatchError where
  | unknownOperation
  | invalidArgument (field : String)
  | handlerFailure (message : String)
  deriving DecidableEq, Repr

/-- Modelled from the spec: the operation registry, a closed map from
(kind, name) keys to descriptors, populated once at startup and read-only
afterwards (§4.1). -/
structure Registry where
  descriptors : List ((OpKind × String) × OperationDescriptor)

/-- Modelled from the spec: `dispatch(kind, name, arguments)` (§4.1) looks up
the descriptor — failing with `UnknownOperationError` when no descriptor
matches (kind, name) — then validates the arguments (failing with
`InvalidArgumentError` naming the offending field) and invokes the handler,
propagating a handler failure with its message. -/
def dispatch (reg : Registry) (kind : OpKind) (name : String)
    (args : List (String × String)) : Except DispatchError String :=
  match reg.descriptors.lookup (kind, name) with
  | none => Except.error DispatchError.unknownOperation
  | some d =>
    match d.validate args with
    | some f => Except.error (DispatchError.invalidArgument f)
    | none =>
      match d.handler args with
      | Except.ok r => Except.ok r
      | Except.error m => Except.error (DispatchError.handlerFailure m)

/- ===================== Helper lemmas ===================== -/

theorem stepTask_keeps_browser_set (s : SessionState) (t : SessionTask)
    (hb : (s.browser).isSome = true) : ((stepTask s t).1.browser).isSome = true := by
  cases t with
  | gbStart =>
    cases h : s.browser with
    | some b => simp [stepTask, h]
    | none => rw [h] at hb; simp at hb
  | gbAwaitStart => exact hb
  | gbAwaitLaunch => simp [stepTask]
  | gbDone r => exact hb
  | gcStart =>
    cases hc : s.context with
    | some c => simpa [stepTask, hc] using hb
    | none =>
      cases h : s.browser with
      | some b => simp [stepTask, hc, h]
      | none => rw [h] at hb; simp at hb
  | gcAwaitStart => exact hb
  | gcAwaitLaunch => simp [stepTask]
  | gcAwaitNewContext b => simpa [stepTask] using hb
  | gcDone r => exact hb

theorem stepTask_keeps_context_set (s : SessionState) (t : SessionTask)
    (hc : (s.context).isSome = true) : ((stepTask s t).1.context).isSome = true := by
  cases t with
  | gbStart =>
    cases h : s.browser with
    | some b => simpa [stepTask, h] using hc
    | none => simpa [stepTask, h] using hc
  | gbAwaitStart => exact hc
  | gbAwaitLaunch => simpa [stepTask] using hc
  | gbDone r => exact hc
  | gcStart =>
    cases h : s.context with
    | some c => simp [stepTask, h]
    | none => rw [h] at hc; simp at hc
  | gcAwaitStart => exact hc
  | gcAwaitLaunch => simpa [stepTask] using hc
  | gcAwaitNewContext b => simp [stepTask]
  | gcDone r => exact hc

theorem stepAt_keeps_set (cfg : Config) (i : Nat) :
    (((cfg.state.browser).isSome = true → ((stepAt cfg i).state.browser).isSome = true) ∧
     ((cfg.state.context).isSome = true → ((stepAt cfg i).state.context).isSome = true)) := by
  unfold stepAt
  cases h : cfg.tasks.get? i with
  | none => exact ⟨fun hb => hb, fun hc => hc⟩
  | some t =>
    exact ⟨fun hb => stepTask_keeps_browser_set cfg.state t hb,
           fun hc => stepTask_keeps_context_set cfg.state t hc⟩

/- ===================== Claim theorems ===================== -/

/-- C1: the claim states that N concurrent uninitialized calls to
`get_browser` perform exactly one engine launch and all observe the same
handle.  The code has no guard: with two first callers interleaved at the
`await` points (both run the `_browser is None` check before either
assignment), two launches complete (`launches = 2`) and the two calls
return the distinct handles 0 and 1. -/
theorem get_browser_race_double_launch :
    (runSched twoFirstCallers raceSchedule).state.launches = 2 ∧
    (runSched twoFirstCallers raceSchedule).tasks =
      [SessionTask.gbDone 0, SessionTask.gbDone 1] :=
  ⟨rfl, rfl⟩

/-- C2: if the engine launch inside `get_browser` fails, the failure
propagates to the caller and `_browser` stays `None` (the assignment never
executes), so a later call with a succeeding launch initializes from
scratch and returns the fresh handle. -/
theorem get_browser_failure_retries (e : String) (h : Nat) (s : SessionState)
    (hs : s.browser = none) :
    getBrowserS (Except.error e) s = (Except.error e, s) ∧
    getBrowserS (Except.ok h) s =
      (Except.ok h, { s with browser := some h, launches := s.launches + 1 }) := by
  constructor <;> simp [getBrowserS, hs]

/-- Witness for C2 at the uninitialized state. -/
theorem get_browser_failure_retries_witness :
    getBrowserS (Except.error "boom") initialState = (Except.error "boom", initialState) ∧
    getBrowserS (Except.ok 0) initialState =
      (Except.ok 0, { initialState with browser := some 0, launches := 1 }) :=
  get_browser_failure_retries "boom" 0 initialState rfl

/-- C3: after the session is fully initialized (`_browser = some b`,
`_browser_context = some c`), every further sequence of `get_browser` /
`get_browser_context` calls leaves the state unchanged — in particular no
new launch or context creation happens — and each call returns the
memoized handle `b` resp. context `c`. -/
theorem session_idempotent_after_success (launch : Except String Nat)
    (s : SessionState) (b c : Nat) (hb : s.browser = some b)
    (hc : s.context = some c) (ops : List SessionOp) :
    (runOps launch ops s).2 = s ∧
    (runOps launch ops s).1 = ops.map (fun op => match op with
      | SessionOp.engine => Except.ok b
      | SessionOp.ctx => Except.ok c) := by
  induction ops with
  | nil => exact ⟨rfl, rfl⟩
  | cons op rest ih =>
    cases op with
    | engine =>
      refine ⟨?_, ?_⟩ <;> simp [runOps, getBrowserS, hb, ih.1, ih.2]
    | ctx =>
      refine ⟨?_, ?_⟩ <;> simp [runOps, getBrowserContextS, hc, ih.1, ih.2]

/-- Witness for C3 at a concrete initialized state and call sequence. -/
theorem session_idempotent_after_success_witness :
    (runOps (Except.ok 99) [SessionOp.engine, SessionOp.ctx, SessionOp.engine]
        ⟨some 5, some 7, 1, 1⟩).2 = ⟨some 5, some 7, 1, 1⟩ ∧
    (runOps (Except.ok 99) [SessionOp.engine, SessionOp.ctx, SessionOp.engine]
        ⟨some 5, some 7, 1, 1⟩).1 = [Except.ok 5, Except.ok 7, Except.ok 5] :=
  session_idempotent_after_success (Except.ok 99) ⟨some 5, some 7, 1, 1⟩ 5 7 rfl rfl
    [SessionOp.engine, SessionOp.ctx, SessionOp.engine]

/-- C4: the claim states that at most one engine handle exists in every
reachable state.  The state reached by the two-first-caller race has two
launched engines, neither of which is ever closed, so two live handles
exist at once. -/
theorem race_reaches_two_live_engines :
    liveEngines (runSched twoFirstCallers raceSchedule).state = 2 ∧
    1 < liveEngines (runSched twoFirstCallers raceSchedule).state :=
  ⟨rfl, by decide⟩

/-- C5: `execute_command` fails if and only if the exit status is nonzero;
on failure the error carries the captured standard error trimmed of
surrounding whitespace, and on a zero exit status it returns the captured
standard output trimmed. -/
theorem execute_command_spec (r : CmdResult) :
    ((∃ e, execute_command r = Except.error e) ↔ r.exitCode ≠ 0) ∧
    (r.exitCode = 0 → execute_command r = Except.ok (pyStrip r.stdout)) ∧
    (r.exitCode ≠ 0 →
      execute_command r =
        Except.error ("Command failed with error: " ++ pyStrip r.stderr)) := by
  by_cases h : r.exitCode = 0 <;> simp [execute_command, h]

/-- Witness for C5 at a succeeding and a failing invocation. -/
theorem execute_command_spec_witness :
    execute_command ⟨" out \n", "err", 0⟩ = Except.ok "out" ∧
    execute_command ⟨"", " boom \n", 1⟩ =
      Except.error "Command failed with error: boom" := by
  constructor
  · exact (execute_command_spec ⟨" out \n", "err", 0⟩).2.1 rfl
  · exact (execute_command_spec ⟨"", " boom \n", 1⟩).2.2 (by decide)

/-- C6: `read_resource` resolves `name` against the fixed base directory and
fails (with the `Resource not found` error) exactly when the resolved path
is not an existing regular file; for an existing regular file it returns
that file's exact stored content. -/
theorem read_resource_spec (root : List String) (fs : FileSystem) (name : String) :
    ((∃ e, read_resource root fs name = Except.error e) ↔
      fs.files.lookup (resourcePath root name) = none) ∧
    (∀ content, fs.files.lookup (resourcePath root name) = some content →
      read_resource root fs name = Except.ok content) := by
  cases h : fs.files.lookup (resourcePath root name) <;> simp [read_resource, h]

/-- Witness for C6 at an existing file and a missing one. -/
theorem read_resource_spec_witness :
    read_resource ["r"] ⟨[(["r", "resources", "greeting.txt"], "hi")]⟩ "greeting.txt" =
      Except.ok "hi" ∧
    (∃ e, read_resource ["r"] ⟨[]⟩ "missing.txt" = Except.error e) := by
  constructor
  · exact (read_resource_spec ["r"] ⟨[(["r", "resources", "greeting.txt"], "hi")]⟩
      "greeting.txt").2 "hi" (by decide)
  · exact (read_resource_spec ["r"] ⟨[]⟩ "missing.txt").1.mpr (by decide)

/-- C7 counterexample: the claim states that once the session is Ready no
operation ever resets or replaces the memoized engine handle.  After five
steps of the two-first-caller race the session is Ready with handle 0, yet
resuming the second initializer — already in flight — replaces `_browser`
with handle 1. -/
theorem ready_handle_replaced :
    (runSched twoFirstCallers [0, 1, 0, 1, 0]).state.browser = some 0 ∧
    (runSched twoFirstCallers [0, 1, 0, 1, 0, 1]).state.browser = some 1 :=
  ⟨rfl, rfl⟩

/-- C7 amended: once `_browser` (resp. `_browser_context`) is set, no
schedule of `get_browser` / `get_browser_context` coroutines ever resets it
to `None`: the session never transitions back to Uninitialized, although an
initialization already in flight may still replace the memoized handle. -/
theorem session_never_reverts_to_uninitialized (cfg : Config) (sched : List Nat) :
    ((cfg.state.browser).isSome = true →
      ((runSched cfg sched).state.browser).isSome = true) ∧
    ((cfg.state.context).isSome = true →
      ((runSched cfg sched).state.context).isSome = true) := by
  induction sched generalizing cfg with
  | nil => exact ⟨fun hb => hb, fun hc => hc⟩
  | cons i rest ih =>
    exact ⟨fun hb => (ih (stepAt cfg i)).1 ((stepAt_keeps_set cfg i).1 hb),
           fun hc => (ih (stepAt cfg i)).2 ((stepAt_keeps_set cfg i).2 hc)⟩

/-- Witness for C7's amended claim at a Ready configuration. -/
theorem session_never_reverts_witness :
    ((runSched ⟨⟨some 3, some 4, 1, 1⟩, [SessionTask.gbStart, SessionTask.gcStart]⟩
        [0, 1, 0, 1]).state.browser).isSome = true ∧
    ((runSched ⟨⟨some 3, some 4, 1, 1⟩, [SessionTask.gbStart, SessionTask.gcStart]⟩
        [0, 1, 0, 1]).state.context).isSome = true :=
  ⟨(session_never_reverts_to_uninitialized
      ⟨⟨some 3, some 4, 1, 1⟩, [SessionTask.gbStart, SessionTask.gcStart]⟩ [0, 1, 0, 1]).1 rfl,
   (session_never_reverts_to_uninitialized
      ⟨⟨some 3, some 4, 1, 1⟩, [SessionTask.gbStart, SessionTask.gcStart]⟩ [0, 1, 0, 1]).2 rfl⟩

/-- C8: `dispatch` on a (kind, name) pair with no registered descriptor
fails with `UnknownOperationError` — and with no other error kind, since
the result is exactly that error. -/
theorem dispatch_unknown_operation (reg : Registry) (kind : OpKind) (name : String)
    (args : List (String × String))
    (h : reg.descriptors.lookup (kind, name) = none) :
    dispatch reg kind name args = Except.error DispatchError.unknownOperation := by
  simp [dispatch, h]

/-- Witness for C8 at the empty registry. -/
theorem dispatch_unknown_operation_witness :
    dispatch ⟨[]⟩ OpKind.tool "nope" [] = Except.error DispatchError.unknownOperation :=
  dispatch_unknown_operation ⟨[]⟩ OpKind.tool "nope" [] rfl

/-- C9: `read_resource` joins the caller-supplied name onto the resources
directory with no rejection of separators or `..` segments: the name
`../secret.txt` resolves to a path outside the resources base directory
(it is not even prefixed by it), and when that outside path is an existing
regular file its full content is returned instead of an error. -/
theorem read_resource_path_traversal :
    resourcePath ["r"] "../secret.txt" = ["r", "secret.txt"] ∧
    (["r", "resources"].isPrefixOf (resourcePath ["r"] "../secret.txt")) = false ∧
    read_resource ["r"] ⟨[(["r", "secret.txt"], "TOP")]⟩ "../secret.txt" =
      Except.ok "TOP" :=
  ⟨rfl, rfl, rfl⟩

/-- C10: the tools `echo` and `add` and the prompts `hello` and `sum` are
deterministic and state-independent: their results agree across any two
process states, and they leave the shared browser-session state unchanged. -/
theorem pure_handlers_state_independent (text : String) (a b : Float)
    (name : String) (numbers : List Float) (s1 s2 : SessionState) :
    (echo text s1).1 = (echo text s2).1 ∧ (echo text s1).2 = s1 ∧
    (add a b s1).1 = (add a b s2).1 ∧ (add a b s1).2 = s1 ∧
    (hello_prompt name s1).1 = (hello_prompt name s2).1 ∧
    (hello_prompt name s1).2 = s1 ∧
    (sum_prompt numbers s1).1 = (sum_prompt numbers s2).1 ∧
    (sum_prompt numbers s1).2 = s1 :=
  ⟨rfl, rfl, rfl, rfl, rfl, rfl, rfl, rfl⟩
